import Mathlib

/-!
# Verification of `sw/exploit/ref/ref_main.c` (VSoCNRVH-3)

Shallow embedding of the single source file of the repository, a 19-line
NEORV32 test program.  The program body (lines 12-18 of the C file) is

  uint32_t a = (uint32_t)neorv32_cpu_csr_read(CSR_CYCLE);
  neorv32_cpu_goto_user_mode();
  a = (uint32_t)neorv32_cpu_csr_read(CSR_CYCLE);
  neorv32_cpu_csr_write(CSR_CYCLE, 0);
  return 0;

with lines 6-11, 13 and 17 commented out.  The NEORV32 library primitives
are modelled as trace-recording operations over an execution state that
carries an oracle for the values returned by successive CSR reads; the
RISC-V CSR access rules referenced by the claims are modelled as a step
relation on a machine state.
-/

/-- CSR address of the `cycle` counter (RISC-V user counter, `0xC00`). -/
def CSR_CYCLE : Nat := 0xC00

/-- CSR address of `mstatus` (`0x300`, decimal 768). -/
def CSR_MSTATUS : Nat := 0x300

/-- CSR address of `mcounteren` (`0x306`). -/
def CSR_MCOUNTEREN : Nat := 0x306

/-- An externally visible operation performed by the program: a CSR read
(recording the value obtained), a CSR write, or the privilege-mode switch
performed by `neorv32_cpu_goto_user_mode`. -/
inductive Event : Type where
  | csrRead (csr : Nat) (val : Nat)
  | csrWrite (csr : Nat) (val : Nat)
  | gotoUserMode
deriving DecidableEq

/-- The CSR address touched by an event, if any. -/
def Event.csrOf : Event → Option Nat
  | .csrRead c _ => some c
  | .csrWrite c _ => some c
  | .gotoUserMode => none

/-- Whether an event is a CSR write. -/
def Event.isCsrWrite : Event → Bool
  | .csrWrite _ _ => true
  | _ => false

/-- Whether an event is a CSR read. -/
def Event.isCsrRead : Event → Bool
  | .csrRead _ _ => true
  | _ => false

/-- Whether an event is the privilege-mode switch. -/
def Event.isGotoUserMode : Event → Bool
  | .gotoUserMode => true
  | _ => false

/-- The shape of an event with the data returned by the environment (the
value obtained by a CSR read) erased; what remains is fully determined by
the program text. -/
inductive EventShape : Type where
  | csrRead (csr : Nat)
  | csrWrite (csr : Nat) (val : Nat)
  | gotoUserMode
deriving DecidableEq

/-- Erase the environment-chosen value of a read event. -/
def Event.shape : Event → EventShape
  | .csrRead c _ => .csrRead c
  | .csrWrite c v => .csrWrite c v
  | .gotoUserMode => .gotoUserMode

/-- Execution state of the program: `reads n` is the (arbitrary) value
returned by the `n`-th CSR read, `nreads` counts the reads performed so
far, and `trace` records the externally visible operations in order. -/
structure Exec : Type where
  reads : Nat → Nat
  nreads : Nat
  trace : List Event

/-- Initial execution state for a given read oracle. -/
def Exec.init (reads : Nat → Nat) : Exec :=
  { reads := reads, nreads := 0, trace := [] }

/-- `neorv32_cpu_csr_read`: returns the next oracle value, truncated to a
32-bit register, and records the read. -/
def neorv32_cpu_csr_read (csr : Nat) (s : Exec) : Nat × Exec :=
  let v := s.reads s.nreads % 2 ^ 32
  (v, { s with nreads := s.nreads + 1, trace := s.trace ++ [Event.csrRead csr v] })

/-- `neorv32_cpu_csr_write`: records the write of a 32-bit value. -/
def neorv32_cpu_csr_write (csr val : Nat) (s : Exec) : Exec :=
  { s with trace := s.trace ++ [Event.csrWrite csr (val % 2 ^ 32)] }

/-- `neorv32_cpu_goto_user_mode`: records the privilege-mode switch. -/
def neorv32_cpu_goto_user_mode (s : Exec) : Exec :=
  { s with trace := s.trace ++ [Event.gotoUserMode] }

namespace RefMain

/-- `main` of `ref_main.c`, lines 5-19, translated line by line; the
commented-out lines 6-11, 13 and 17 contribute nothing.  Returns the C
return value together with the final execution state. -/
def main (s : Exec) : Nat × Exec :=
  -- line 12: uint32_t a = (uint32_t)neorv32_cpu_csr_read(CSR_CYCLE);
  let (a, s) := neorv32_cpu_csr_read CSR_CYCLE s
  -- line 14: neorv32_cpu_goto_user_mode();
  let s := neorv32_cpu_goto_user_mode s
  -- line 15: a = (uint32_t)neorv32_cpu_csr_read(CSR_CYCLE);
  let (a, s) := neorv32_cpu_csr_read CSR_CYCLE s
  -- line 16: neorv32_cpu_csr_write(CSR_CYCLE, 0);
  let s := neorv32_cpu_csr_write CSR_CYCLE 0 s
  -- line 18: return 0;
  (0, s)

/-- The final value held by the local variable `a` of `main` (the value
of the second `CSR_CYCLE` read); exposed for the dead-store analysis of
the first read. -/
def main_local_a (s : Exec) : Nat :=
  let (a, s1) := neorv32_cpu_csr_read CSR_CYCLE s
  let s2 := neorv32_cpu_goto_user_mode s1
  let (a2, _) := neorv32_cpu_csr_read CSR_CYCLE s2
  a2

end RefMain

/-! ## RISC-V CSR access rules, as a step relation on a machine state -/

/-- A RISC-V privilege mode (only the two used by the program). -/
inductive Priv : Type where
  | user
  | machine
deriving DecidableEq

/-- Numeric encoding of a privilege mode (RISC-V: U = 0, M = 3). -/
def Priv.level : Priv → Nat
  | .user => 0
  | .machine => 3

/-- Machine state: the CSR register file and the current privilege. -/
structure Machine : Type where
  csr : Nat → Nat
  priv : Priv

/-- Modelled from the spec: RISC-V CSR address convention.  Bits [11:10]
of the 12-bit CSR address equal to `11` mark the CSR read-only; `cycle`
(`0xC00`) is such a CSR. -/
def csrAddrReadOnly (addr : Nat) : Bool :=
  addr / 1024 % 4 == 3

/-- Modelled from the spec: bits [9:8] of the CSR address give the lowest
privilege level allowed to access the CSR. -/
def csrMinPrivLevel (addr : Nat) : Nat :=
  addr / 256 % 4

/-- Whether the address is one of the user counters `cycle`..`hpmcounter31`
(`0xC00`-`0xC1F`), whose user-mode access is gated by `mcounteren`. -/
def csrIsUserCounter (addr : Nat) : Bool :=
  0xC00 ≤ addr && addr ≤ 0xC1F

/-- Modelled from the spec: user-mode access to counter CSR `addr` needs
bit `addr - 0xC00` of `mcounteren` to be set. -/
def counterEnabled (m : Machine) (addr : Nat) : Bool :=
  m.csr CSR_MCOUNTEREN / 2 ^ (addr - 0xC00) % 2 == 1

/-- Modelled from the spec: a CSR read is permitted when the current
privilege reaches the CSR's minimum privilege, and, for a user counter
accessed in user mode, when `mcounteren` enables it. -/
def csrReadOk (m : Machine) (addr : Nat) : Bool :=
  csrMinPrivLevel addr ≤ m.priv.level &&
    (if m.priv == Priv.user && csrIsUserCounter addr then counterEnabled m addr else true)

/-- Modelled from the spec: a CSR write is permitted only on a CSR that
is not read-only, under the same privilege and counter-enable conditions
as a read. -/
def csrWriteOk (m : Machine) (addr : Nat) : Bool :=
  if csrAddrReadOnly addr then false else csrReadOk m addr

/-- Modelled from the spec: the non-trapping transitions of the machine.
A read or write proceeds only when the CSR access check passes; a write
updates the register file; `gotoUserMode` switches to user privilege.
There is no privilege-raising transition. -/
inductive Step : Machine → Event → Machine → Prop where
  | csrRead (m : Machine) (addr : Nat) (h : csrReadOk m addr = true) :
      Step m (Event.csrRead addr (m.csr addr)) m
  | csrWrite (m : Machine) (addr v : Nat) (h : csrWriteOk m addr = true) :
      Step m (Event.csrWrite addr v)
        { m with csr := fun a => if a = addr then v % 2 ^ 32 else m.csr a }
  | gotoUser (m : Machine) :
      Step m Event.gotoUserMode { m with priv := Priv.user }

/-- A read oracle whose first read returns 5 and all later reads 0. -/
def oracleA : Nat → Nat := fun n => if n = 0 then 5 else 0

/-- The all-zero read oracle. -/
def oracleB : Nat → Nat := fun _ => 0

/-! ## Sanity checks on concrete inputs -/

example : (RefMain.main (Exec.init fun _ => 5)).1 = 0 := rfl

example : (RefMain.main (Exec.init fun n => n + 7)).2.trace =
    [Event.csrRead CSR_CYCLE 7, Event.gotoUserMode,
     Event.csrRead CSR_CYCLE 8, Event.csrWrite CSR_CYCLE 0] := rfl

example : csrAddrReadOnly CSR_CYCLE = true := by decide

example : csrWriteOk { csr := fun _ => 0, priv := Priv.machine } CSR_CYCLE = false := by
  decide

/-! ## Claims -/

/-- C1: on every execution (every read oracle), `main` performs exactly one
read of `CSR_CYCLE`, one call to `neorv32_cpu_goto_user_mode`, a second read
of `CSR_CYCLE`, one write of 0 to `CSR_CYCLE`, in this order and no others,
and then returns. -/
theorem main_event_sequence (reads : Nat → Nat) :
    RefMain.main (Exec.init reads) =
      (0, { reads := reads, nreads := 2,
            trace := [Event.csrRead CSR_CYCLE (reads 0 % 2 ^ 32), Event.gotoUserMode,
                      Event.csrRead CSR_CYCLE (reads 1 % 2 ^ 32),
                      Event.csrWrite CSR_CYCLE 0] }) := rfl

/-- C2: for every initial execution state, `main` terminates normally (it is
a total function of the state) and its return value is 0. -/
theorem main_returns_zero_total (s : Exec) : (RefMain.main s).1 = 0 := rfl

/-- C3: the second `CSR_CYCLE` read and the write of 0 to `CSR_CYCLE` are
both issued after `neorv32_cpu_goto_user_mode` (trace positions 2 and 3,
after the switch at position 1), `main` never writes `MCOUNTEREN`, and under
the step relation enforcing the RISC-V CSR access rules the write of 0 to
`CSR_CYCLE` from a user-mode state has no non-trapping transition. -/
theorem user_mode_cycle_write_cannot_complete (reads : Nat → Nat) (m m' : Machine)
    (h : m.priv = Priv.user) :
    ((RefMain.main (Exec.init reads)).2.trace[1]? = some Event.gotoUserMode ∧
     (RefMain.main (Exec.init reads)).2.trace[2]? =
       some (Event.csrRead CSR_CYCLE (reads 1 % 2 ^ 32)) ∧
     (RefMain.main (Exec.init reads)).2.trace[3]? = some (Event.csrWrite CSR_CYCLE 0) ∧
     (RefMain.main (Exec.init reads)).2.trace.filter
        (fun e => e.isCsrWrite && (e.csrOf == some CSR_MCOUNTEREN)) = []) ∧
    ¬ Step m (Event.csrWrite CSR_CYCLE 0) m' := by
  refine ⟨⟨rfl, rfl, rfl, rfl⟩, fun hs => ?_⟩
  cases hs with
  | csrWrite addr v hok =>
    have hro : csrAddrReadOnly CSR_CYCLE = true := by decide
    simp [csrWriteOk, hro] at hok

/-- Witness for C3 at the all-zero user-mode machine. -/
theorem user_mode_cycle_write_cannot_complete_witness :
    (Machine.mk (fun _ => 0) Priv.user).priv = Priv.user ∧
    ¬ Step (Machine.mk (fun _ => 0) Priv.user) (Event.csrWrite CSR_CYCLE 0)
        (Machine.mk (fun _ => 0) Priv.user) :=
  ⟨rfl, (user_mode_cycle_write_cannot_complete oracleB
      (Machine.mk (fun _ => 0) Priv.user) (Machine.mk (fun _ => 0) Priv.user) rfl).2⟩

/-- C4 counterexample: on the concrete run with the all-zero read oracle, no
executed operation of `main` reads or writes `MSTATUS`, refuting the claim
that an executed statement exercises `MSTATUS` (the `MSTATUS` lines of
`ref_main.c` are commented out). -/
theorem main_exercises_mstatus_cx :
    ¬ ∃ e ∈ (RefMain.main (Exec.init oracleB)).2.trace, Event.csrOf e = some CSR_MSTATUS := by
  decide

/-- C4 amended: `MSTATUS` appears only in commented-out lines of `main`; on
every execution, no operation `main` performs reads or writes `MSTATUS`. -/
theorem main_no_executed_mstatus_access (reads : Nat → Nat) :
    (RefMain.main (Exec.init reads)).2.trace.filter
        (fun e => e.csrOf == some CSR_MSTATUS) = [] := rfl

/-- C5: `main` has no error handling: its result is the success value 0 and
the shapes of the operations it performs (everything but the values the
environment returns for the reads) are a fixed sequence, for every value the
two `CSR_CYCLE` reads can return; nothing is inspected or branched on. -/
theorem main_no_error_handling (reads : Nat → Nat) :
    (RefMain.main (Exec.init reads)).1 = 0 ∧
    (RefMain.main (Exec.init reads)).2.trace.map Event.shape =
      [EventShape.csrRead CSR_CYCLE, EventShape.gotoUserMode,
       EventShape.csrRead CSR_CYCLE, EventShape.csrWrite CSR_CYCLE 0] :=
  ⟨rfl, rfl⟩

/-- C6: the only CSR written by a statement of `main` is `CSR_CYCLE`: the
write events of its trace are exactly one write of 0 to `CSR_CYCLE`, and no
write event touches any other CSR (`MSTATUS`, `MCOUNTEREN`, CSR 768, ...). -/
theorem main_writes_only_cycle (reads : Nat → Nat) :
    (RefMain.main (Exec.init reads)).2.trace.filter Event.isCsrWrite =
      [Event.csrWrite CSR_CYCLE 0] ∧
    (RefMain.main (Exec.init reads)).2.trace.filter
        (fun e => e.isCsrWrite && !(e.csrOf == some CSR_CYCLE)) = [] :=
  ⟨rfl, rfl⟩

/-- C7: `main` triggers exactly one privilege-mode switch, strictly after
the first `CSR_CYCLE` read (position 0) and strictly before the second
(position 2); and the step relation has no privilege-raising transition, so
any step taken from a user-mode state leaves the machine in user mode. -/
theorem main_single_privilege_switch (reads : Nat → Nat) (m m' : Machine) (e : Event)
    (hstep : Step m e m') (hu : m.priv = Priv.user) :
    ((RefMain.main (Exec.init reads)).2.trace.countP Event.isGotoUserMode = 1 ∧
     (RefMain.main (Exec.init reads)).2.trace[0]? =
       some (Event.csrRead CSR_CYCLE (reads 0 % 2 ^ 32)) ∧
     (RefMain.main (Exec.init reads)).2.trace[1]? = some Event.gotoUserMode ∧
     (RefMain.main (Exec.init reads)).2.trace[2]? =
       some (Event.csrRead CSR_CYCLE (reads 1 % 2 ^ 32))) ∧
    m'.priv = Priv.user := by
  refine ⟨⟨rfl, rfl, rfl, rfl⟩, ?_⟩
  cases hstep with
  | csrRead addr hok => exact hu
  | csrWrite addr v hok => exact hu
  | gotoUser => rfl

/-- Witness for C7: the privilege-switch step from a user-mode machine. -/
theorem main_single_privilege_switch_witness :
    Step (Machine.mk (fun _ => 0) Priv.user) Event.gotoUserMode
      (Machine.mk (fun _ => 0) Priv.user) ∧
    (Machine.mk (fun _ => 0) Priv.user).priv = Priv.user ∧
    (Machine.mk (fun _ => 0) Priv.user).priv = Priv.user :=
  ⟨Step.gotoUser _, rfl,
   (main_single_privilege_switch oracleB (Machine.mk (fun _ => 0) Priv.user)
      (Machine.mk (fun _ => 0) Priv.user) Event.gotoUserMode (Step.gotoUser _) rfl).2⟩

/-- C8: `main` is deterministic: with the primitives fixed as defined here,
two runs from equal initial states return the same value, perform the same
trace of operations, and end in the same final state. -/
theorem main_deterministic (s1 s2 : Exec) (h : s1 = s2) :
    (RefMain.main s1).1 = (RefMain.main s2).1 ∧
    (RefMain.main s1).2.trace = (RefMain.main s2).2.trace ∧
    (RefMain.main s1).2 = (RefMain.main s2).2 := by
  subst h; exact ⟨rfl, rfl, rfl⟩

/-- Witness for C8 at the all-zero oracle. -/
theorem main_deterministic_witness :
    Exec.init oracleB = Exec.init oracleB ∧
    ((RefMain.main (Exec.init oracleB)).1 = (RefMain.main (Exec.init oracleB)).1 ∧
     (RefMain.main (Exec.init oracleB)).2.trace = (RefMain.main (Exec.init oracleB)).2.trace ∧
     (RefMain.main (Exec.init oracleB)).2 = (RefMain.main (Exec.init oracleB)).2) :=
  ⟨rfl, main_deterministic (Exec.init oracleB) (Exec.init oracleB) rfl⟩

/-- C9: the first `CSR_CYCLE` read is dead: two runs whose oracles agree on
the second read (and may differ on the first) return the same value, leave
the local `a` with the same final value, perform the same number of reads,
the same operations from the switch on, and traces of identical shape. -/
theorem main_first_read_dead (r1 r2 : Nat → Nat) (h : r1 1 = r2 1) :
    (RefMain.main (Exec.init r1)).1 = (RefMain.main (Exec.init r2)).1 ∧
    RefMain.main_local_a (Exec.init r1) = RefMain.main_local_a (Exec.init r2) ∧
    (RefMain.main (Exec.init r1)).2.nreads = (RefMain.main (Exec.init r2)).2.nreads ∧
    (RefMain.main (Exec.init r1)).2.trace.drop 1 =
      (RefMain.main (Exec.init r2)).2.trace.drop 1 ∧
    (RefMain.main (Exec.init r1)).2.trace.map Event.shape =
      (RefMain.main (Exec.init r2)).2.trace.map Event.shape := by
  simp [RefMain.main, RefMain.main_local_a, Exec.init, neorv32_cpu_csr_read,
    neorv32_cpu_csr_write, neorv32_cpu_goto_user_mode, Event.shape, h]

/-- Witness for C9: the oracles `oracleA` and `oracleB` differ in the first
read value (5 versus 0) and agree on the second. -/
theorem main_first_read_dead_witness :
    oracleA 1 = oracleB 1 ∧
    ((RefMain.main (Exec.init oracleA)).1 = (RefMain.main (Exec.init oracleB)).1 ∧
     RefMain.main_local_a (Exec.init oracleA) = RefMain.main_local_a (Exec.init oracleB) ∧
     (RefMain.main (Exec.init oracleA)).2.nreads = (RefMain.main (Exec.init oracleB)).2.nreads ∧
     (RefMain.main (Exec.init oracleA)).2.trace.drop 1 =
       (RefMain.main (Exec.init oracleB)).2.trace.drop 1 ∧
     (RefMain.main (Exec.init oracleA)).2.trace.map Event.shape =
       (RefMain.main (Exec.init oracleB)).2.trace.map Event.shape) :=
  ⟨rfl, main_first_read_dead oracleA oracleB rfl⟩
